import Mathlib

/-!
Verification development for the radproc repository (RADOLAN composite
decoding and rainfall-erosivity analysis).

The Python source is shallowly embedded:

* float values that may be NaN are modelled as `Option ℚ` (`none` = NaN);
  comparisons against NaN are false, `np.nansum` treats NaN as 0;
* numpy integer arrays are modelled as `List ℕ` with explicit wrap-around
  (`% 256`, `% 65536`) where the dtype makes it observable;
* Python slices (which wrap negative indices) are modelled by `pySlice`;
* `while`-loops are modelled as fuel-indexed recursions; the fuel bounds
  chosen at the call sites are provably sufficient, and divergence of a
  loop shows up as the result being `none` / fuel-independent stalls;
* `math.log10` is kept abstract as a function parameter `ℚ → ℚ`, since
  every claim treated here only depends on the branch structure around it.
-/

namespace Radproc

/-- A float cell value: `none` models NaN (missing). -/
abbrev PVal := Option ℚ

/-- Python `v > 0.0` on a possibly-NaN float: NaN compares false. -/
def gtZero (v : PVal) : Bool :=
  match v with
  | none => false
  | some q => decide (0 < q)

/-- `np.nansum`: sum of the entries, NaN treated as 0 (all-NaN sums to 0.0). -/
def nansum (l : List PVal) : ℚ :=
  (l.map (fun v => v.getD 0)).sum

/-- `np.nanmax`: maximum over the non-NaN entries.  (In `calc_R_factor` it is
only reached on windows whose first entry is a positive number, so the
all-NaN fallback value 0 is never observable.) -/
def nanmax (l : List PVal) : ℚ :=
  match l.filterMap id with
  | [] => 0
  | x :: xs => xs.foldl max x

/-- Python slice `l[a:b]` (step 1): negative indices count from the end,
then both bounds are clamped into `[0, len]`. -/
def pySlice {α : Type} (l : List α) (a b : ℤ) : List α :=
  let n : ℤ := (l.length : ℤ)
  let a' := (if a < 0 then max (n + a) 0 else min a n).toNat
  let b' := (if b < 0 then max (n + b) 0 else min b n).toNat
  (l.take b').drop a'

/-! ## Erosivity engine (`radproc/erosivity.py`, `calc_R_factor`) -/

/-- The inner scan of `calc_R_factor` (source lines 331-342): starting just
after an interval with rain at index `i`, advance the cursor, resetting the
dry-run counter `rain_pause` on rain and incrementing it otherwise; stop as
soon as the counter exceeds `six` or the array end is reached (the code sets
`rain_pause = six_hours + 1` there).  `fuel ≥ col.length - i` makes the
fuel clause unreachable. -/
def innerScan (col : List PVal) (six : ℕ) : ℕ → ℕ → ℕ → ℕ
  | 0, i, _ => i
  | fuel + 1, i, pause =>
    if pause ≤ six then
      if i + 1 = col.length then i + 1
      else if gtZero (col.getD (i + 1) none) then innerScan col six fuel (i + 1) 0
      else innerScan col six fuel (i + 1) (pause + 1)
    else i

/-- The event window `N` (source lines 351-355): with the cursor stopped at
`stop`, cut off the trailing six-hour gap when it contains no rain at all,
otherwise keep the full window (Python slicing semantics, including the
negative-index wrap of `stop - six` for events near a short array's end). -/
def eventWindow (col : List PVal) (six start stop : ℕ) : List PVal :=
  if nansum (pySlice col ((stop : ℤ) - six) stop) = 0 then
    pySlice col start ((stop : ℤ) - six)
  else
    pySlice col start stop

/-- The rolling 30-minute maximum (source lines 373-377): start from the sum
of the first window, then update with a strict `>` comparison. -/
def rollMax (N : List PVal) (window : ℕ) : ℚ :=
  (List.range (N.length - window)).foldl
    (fun acc k =>
      let n30 := nansum ((N.drop (k + 1)).take window)
      if acc < n30 then n30 else acc)
    (nansum (N.take window))

/-- I30 of an event window (source lines 363-378): at 60-minute frequency the
maximum single value; otherwise the (rolling) 30-minute sum, doubled. -/
def calcI30 (freq window : ℕ) (N : List PVal) : ℚ :=
  if freq = 60 then nanmax N
  else 2 * (if N.length ≤ window then nansum N else rollMax N window)

/-- Kinetic-energy contribution of one interval value `N[j]` (source lines
386-393).  `I = N[j] * (60/freq_min)` with Python-2 integer division for
`60/freq_min`; note that the second branch of the source tests the raw
interval value `N[j] >= 76.2`, not the intensity `I`.  A NaN value fails both
comparisons and contributes nothing. -/
def energyContrib (log10 : ℚ → ℚ) (freq : ℕ) (v : PVal) : ℚ :=
  match v with
  | none => 0
  | some n =>
    let I : ℚ := n * ((60 / freq : ℕ) : ℚ)
    if 0.05 < I ∧ I < 76.2 then (11.89 + 8.73 * log10 I) * n * (1 / 1000)
    else if 76.2 ≤ n then 28.33 * n * (1 / 1000)
    else 0

/-- Processing of one candidate rain event (source lines 351-396): build the
window, compute I30, and if the event is erosive add `E * I30` to `R` and
bump the event counter.  The `0 < N.length` guard is the source's
`if len(N) > 0` check. -/
def processEvent (log10 : ℚ → ℚ) (col : List PVal) (freq six window start stop : ℕ)
    (acc : ℚ × ℕ) : ℚ × ℕ :=
  let N := eventWindow col six start stop
  if 0 < N.length then
    let I30 := calcI30 freq window N
    if ((10 < I30 ∨ 10 ≤ nansum N) ∧ I30 ≤ 40) then
      let E := (N.map (energyContrib log10 freq)).sum
      (acc.1 + E * I30, acc.2 + 1)
    else acc
  else acc

/-- The outer cursor loop of `calc_R_factor` (source lines 322-400): scan for
the next interval with rain, run the inner scan, process the event, and
resume after the stop position (+1 from the shared `i += 1`).
`fuel ≥ col.length + 1 - i` makes the fuel clause unreachable. -/
def outerLoop (log10 : ℚ → ℚ) (col : List PVal) (freq six window : ℕ) :
    ℕ → ℕ → ℚ × ℕ → ℚ × ℕ
  | 0, _, acc => acc
  | fuel + 1, i, acc =>
    if i < col.length then
      if gtZero (col.getD i none) then
        let stop := innerScan col six col.length i 0
        outerLoop log10 col freq six window fuel (stop + 1)
          (processEvent log10 col freq six window i stop acc)
      else outerLoop log10 col freq six window fuel (i + 1) acc
    else acc

/-- `calc_R_factor(column, freq_min, max_nan_days)` (source lines 263-402).
Returns `none` for the `(NaN, NaN)` short-circuit when too many values are
missing, otherwise `(R, n_rains)`.  All divisions by `freq_min` are Python-2
integer divisions, exactly as in the source
(`six_hours = 6 * 60/freq_min`, `window = 30/freq_min`,
`max_nan_intervals = max_nan_days * (60/freq_min) * 24`). -/
def calc_R_factor (log10 : ℚ → ℚ) (column : List PVal) (freq_min max_nan_days : ℕ) :
    Option (ℚ × ℕ) :=
  let six_hours := 6 * 60 / freq_min
  let window := 30 / freq_min
  let max_nan_intervals := max_nan_days * (60 / freq_min) * 24
  if column.countP (fun v => v.isNone) > max_nan_intervals then
    none
  else
    some (outerLoop log10 column freq_min six_hours window (column.length + 1) 0 (0, 0))

/-- A 28-interval 15-minute precipitation column: a rain event
`[100, -101, 100]` followed by 25 dry intervals.  Sensor columns can carry
negative values (the embedding places no sign restriction, and the RD
product of the decoder explicitly produces negatives). -/
def negativeEventColumn : List PVal :=
  some 100 :: some (-101) :: some 100 :: List.replicate 25 (some 0)

/-! ## RADOLAN binary decoder (`build/lib/radproc/wradlib_io.py`) -/

/-- The header-reading loop of `read_radolan_header` (source lines 95-101):
`while True: mychar = fid.read(1); if mychar == b'\x03': break;
header += str(mychar.decode())`.  The stream is the list of bytes still
unread; a `fid.read(1)` at end-of-stream returns the empty string, which is
not ETX, appends nothing, and the loop repeats with the stream unchanged.
`none` means the loop is still running when `fuel` steps are up — so a
result of `none` for every fuel is a divergent execution. -/
def headerLoop : ℕ → List ℕ → List ℕ → Option (List ℕ)
  | 0, _, _ => none
  | fuel + 1, stream, acc =>
    match stream with
    | [] => headerLoop fuel [] acc
    | b :: rest => if b = 3 then some acc else headerLoop fuel rest (acc ++ [b])

/-- `read_radolan_header(fid)` over a byte stream, fuel-indexed: `some h`
means the loop finished with header bytes `h`, `none` that it was still
running after `fuel` iterations. -/
def read_radolan_header (fuel : ℕ) (stream : List ℕ) : Option (List ℕ) :=
  headerLoop fuel stream []

/-- Decoding of one cell of a default-branch (16-bit) product payload
(source lines 480-498): bit 0x2000 flags no-data (applied last, overriding),
the low 12 bits are the magnitude, for product RD the 0x4000 sign flag
negates the magnitude *on the uint16 array* (wrapping mod 65536), and the
magnitude is multiplied by the header precision factor. -/
def decode16cell (producttype : String) (precision nodata : ℚ) (raw : ℕ) : ℚ :=
  let nodataFlag := raw &&& 0x2000 ≠ 0
  let negativeFlag := raw &&& 0x4000 ≠ 0
  let m := raw &&& 0xFFF
  let m' := if producttype = "RD" ∧ negativeFlag then (65536 - m) % 65536 else m
  if nodataFlag then nodata else (m' : ℚ) * precision

/-- The offset-continuation loop of `decode_radolan_runlength_line` (source
lines 374-377): while the current byte is 255, read the next byte and add
`byte - 16` to the offset.  Both `offset` and the increments live in numpy
uint8, so the arithmetic wraps mod 256 (`byte - 16` is `byte + 240` mod 256).
Returns the final offset and the bytes after the last consumed one, or
`none` for the IndexError of reading past the end of the line. -/
def offsetLoop : ℕ → ℕ → List ℕ → Option (ℕ × List ℕ)
  | offset, byte, rest =>
    if byte = 255 then
      match rest with
      | [] => none
      | b :: rs => offsetLoop ((offset + (b + 240)) % 256) b rs
    else some (offset, rest)

/-- The run decoding loop of `decode_radolan_runlength_line` (source lines
384-393): iterate over `dline` until a newline byte (10); each byte packs
`width` in the high nibble and `val` in the low nibble; the accumulator array
is only created when the first byte is processed (`if lo == 0`), so a line
whose run section is empty or starts with the newline leaves `arr` unbound
and the function dies with a NameError at the `trailing` computation —
modelled as `none`. -/
def runLoop (nodata : ℤ) : List ℕ → List ℤ → List ℤ
  | [], arr => arr
  | byte :: rest, arr =>
    if byte = 10 then arr
    else runLoop nodata rest
      (arr ++ List.replicate ((byte &&& 0xF0) >>> 4) ((byte &&& 0xF : ℕ) : ℤ))

/-- `decode_radolan_runlength_line(line, attrs)` (source lines 347-402).
`line` is the raw byte line (byte 0 is the line number), `ncol` and `nodata`
come from the header attributes.  `none` models the crashes of the source
(IndexError on a short line, NameError when no run byte was processed).
Note the truncation branch of the source returns `dline[:trailing]` — a
slice of the *encoded* bytes, not of the decoded row. -/
def decode_radolan_runlength_line (line : List ℕ) (ncol : ℕ) (nodata : ℤ) :
    Option (List ℤ) :=
  match line.drop 1 with
  | [] => none
  | byte :: rest =>
    if byte = 10 then some (List.replicate ncol nodata)
    else
      match offsetLoop ((byte + 240) % 256) byte rest with
      | none => none
      | some (offset, dline) =>
        match dline with
        | [] => none
        | b0 :: drest =>
          if b0 = 10 then none
          else
            let arr0 : List ℤ :=
              List.replicate offset nodata ++
                List.replicate ((b0 &&& 0xF0) >>> 4) ((b0 &&& 0xF : ℕ) : ℤ)
            let arr := runLoop nodata drest arr0
            let trailing : ℤ := (ncol : ℤ) - arr.length
            if 0 < trailing then
              some (arr ++ List.replicate trailing.toNat nodata)
            else if trailing < 0 then
              some ((pySlice dline 0 trailing).map (fun b => (b : ℤ)))
            else some arr

/-! ## Heavy-rainfall scanner (`radproc/heavyrain.py`) -/

/-- Number of cells of a row that reach the threshold:
`np.count_nonzero(rowseries >= thresholdValue)`; a NaN cell compares false. -/
def countGe (row : List PVal) (thr : ℚ) : ℕ :=
  row.countP (fun v =>
    match v with
    | none => false
    | some q => decide (thr ≤ q))

/-- `_exceeding(rowseries, thresholdValue, minArea)` (source lines 798-800):
true iff the count of cells `>= thresholdValue` strictly exceeds `minArea`. -/
def _exceeding (row : List PVal) (thr : ℚ) (minArea : ℤ) : Bool :=
  decide (minArea < (countGe row thr : ℤ))

/-- The row-selection core of `find_heavy_rainfalls` (source lines 190-206):
keep exactly the timestamps whose row satisfies `_exceeding`.  The archive
is abstracted to a list of (timestamp, row) pairs in time order; the
month-by-month loading and appending preserves exactly this filter. -/
def find_heavy_rainfalls (data : List (ℕ × List PVal)) (thr : ℚ) (minArea : ℤ) :
    List (ℕ × List PVal) :=
  data.filter (fun r => _exceeding r.2 thr minArea)

/-- A season argument: either a string token or a list of month numbers. -/
inductive SeasonArg : Type
  | str : String → SeasonArg
  | list : List ℕ → SeasonArg
deriving DecidableEq

/-- The season-token chain of `find_heavy_rainfalls` (source lines 155-186).
The chain has no `else`: a season outside the vocabulary (including every
list argument, which the chain only compares against strings) leaves the
`months` variable unbound and the later `for month in months` dies with a
NameError — modelled as `none`. -/
def season_months : SeasonArg → Option (List ℕ)
  | SeasonArg.str s =>
    if s = "Year" then some [1, 2, 3, 4, 5, 6, 7, 8, 9, 10, 11, 12]
    else if s = "April - September" then some [4, 5, 6, 7, 8, 9]
    else if s = "October - March" then some [1, 2, 3, 10, 11, 12]
    else if s = "January/December" then some [1, 12]
    else if s = "Jan" then some [1]
    else if s = "Feb" then some [2]
    else if s = "Mar" then some [3]
    else if s = "Apr" then some [4]
    else if s = "May" then some [5]
    else if s = "Jun" then some [6]
    else if s = "Jul" then some [7]
    else if s = "Aug" then some [8]
    else if s = "Sep" then some [9]
    else if s = "Oct" then some [10]
    else if s = "Nov" then some [11]
    else if s = "Dec" then some [12]
    else none
  | SeasonArg.list _ => none

/-- The season-token chain of `find_heavy_rainfalls_old` (source lines
71-102), which still recognizes the half-year tokens "May - October" and
"November - April". -/
def season_months_old : SeasonArg → Option (List ℕ)
  | SeasonArg.str s =>
    if s = "Year" then some [1, 2, 3, 4, 5, 6, 7, 8, 9, 10, 11, 12]
    else if s = "May - October" then some [5, 6, 7, 8, 9, 10]
    else if s = "November - April" then some [1, 2, 3, 4, 11, 12]
    else if s = "January/December" then some [1, 12]
    else if s = "Jan" then some [1]
    else if s = "Feb" then some [2]
    else if s = "Mar" then some [3]
    else if s = "Apr" then some [4]
    else if s = "May" then some [5]
    else if s = "Jun" then some [6]
    else if s = "Jul" then some [7]
    else if s = "Aug" then some [8]
    else if s = "Sep" then some [9]
    else if s = "Oct" then some [10]
    else if s = "Nov" then some [11]
    else if s = "Dec" then some [12]
    else none
  | SeasonArg.list _ => none

/-- The season vocabulary recognized by `find_heavy_rainfalls`. -/
def recognizedSeasons : List String :=
  ["Year", "April - September", "October - March", "January/December",
   "Jan", "Feb", "Mar", "Apr", "May", "Jun", "Jul", "Aug", "Sep", "Oct",
   "Nov", "Dec"]

/-! ## Resampling call sites (pandas `resample` parameters) -/

/-- An interval-boundary side, for the pandas `closed=` / `label=`
resampling parameters. -/
inductive Side : Type
  | left
  | right
deriving DecidableEq

/-- The parameters of one pandas `resample` call: target frequency, which
interval edge is closed, and which edge labels the aggregated interval. -/
structure ResampleCall : Type where
  freq : String
  closed : Side
  label : Side
deriving DecidableEq

/-- Modelled from the pandas library (an external collaborator): the default
for omitted `closed=`/`label=` is the right edge for the month-, quarter-,
year- and week-end anchored offsets and the left edge otherwise; in
particular `'2QS-MAY'` (quarter-*start* anchored) defaults to the left. -/
def pandasDefaultSide (freq : String) : Side :=
  if freq = "M" ∨ freq = "A-DEC" ∨ freq = "A-SEP" ∨ freq = "A-MAR" ∨ freq = "A-JAN"
  then Side.right else Side.left

/-- The season-to-frequency chain of `count_heavy_rainfall_intervals`
(source lines 245-256): annual frequencies with season-specific fiscal
year-end for the half-year/whole-year seasons, monthly otherwise; an
unrecognized season string leaves `freq` unbound (NameError), modelled as
`none`. -/
def chri_freq : SeasonArg → Option String
  | season =>
    if season = SeasonArg.str "Year" ∨
        season = SeasonArg.list [1, 2, 3, 4, 5, 6, 7, 8, 9, 10, 11, 12] then
      some "A-DEC"
    else if season = SeasonArg.str "April - September" then some "A-SEP"
    else if season = SeasonArg.str "October - March" then some "A-MAR"
    else if season = SeasonArg.str "January/December" then some "A-JAN"
    else
      match season with
      | SeasonArg.str s =>
        if s = "Jan" ∨ s = "Feb" ∨ s = "Mar" ∨ s = "Apr" ∨ s = "May" ∨ s = "Jun" ∨
            s = "Jul" ∨ s = "Aug" ∨ s = "Sep" ∨ s = "Oct" ∨ s = "Nov" ∨ s = "Dec"
        then some "M" else none
      | SeasonArg.list _ => some "M"

/-- The resample call of `count_heavy_rainfall_intervals` (source lines
265-268): both pandas-version branches pass `closed='right', label='right'`
explicitly. -/
def chri_resample (pd_ge19 : Bool) (season : SeasonArg) : Option ResampleCall :=
  (chri_freq season).map (fun f =>
    if pd_ge19 then { freq := f, closed := Side.right, label := Side.right }
    else { freq := f, closed := Side.right, label := Side.right })

/-- The resample call of `hdf5_to_hydrologicalSeasons` (`radproc/core.py`
lines 504-507): both pandas-version branches resample to `'2QS-MAY'` with
`label='left'` explicit and `closed` omitted (pandas default). -/
def hydroSeasons_resample (pd_ge19 : Bool) : ResampleCall :=
  if pd_ge19 then
    { freq := "2QS-MAY", closed := pandasDefaultSide "2QS-MAY", label := Side.left }
  else
    { freq := "2QS-MAY", closed := pandasDefaultSide "2QS-MAY", label := Side.left }

/-! ## Helper lemmas -/

/-- The header loop re-reads an empty string forever once the stream is
exhausted: no amount of fuel makes it finish. -/
theorem headerLoop_nil : ∀ (fuel : ℕ) (acc : List ℕ), headerLoop fuel [] acc = none := by
  intro fuel
  induction fuel with
  | zero => intro acc; rfl
  | succ n ih => intro acc; exact ih acc

/-- Declarative characterization of the inner-scan stopping position: given
enough fuel, and given that the dry-run invariant holds for the positions
already counted by `pause`, the scan stops either exactly at the array end
or at a position whose trailing `six + 1` entries are all dry. -/
theorem innerScan_stop_characterization (col : List PVal) (six : ℕ) :
    ∀ (fuel i pause : ℕ), col.length - i ≤ fuel → i < col.length →
      (∀ j, i + 1 - pause ≤ j → j ≤ i → gtZero (col.getD j none) = false) →
      innerScan col six fuel i pause = col.length ∨
        (∀ j, innerScan col six fuel i pause - six ≤ j →
          j ≤ innerScan col six fuel i pause → gtZero (col.getD j none) = false) := by
  intro fuel
  induction fuel with
  | zero =>
    intro i pause h1 h2 _
    exfalso
    omega
  | succ n ih =>
    intro i pause hfuel hi hinv
    simp only [innerScan]
    by_cases hp : pause ≤ six
    · rw [if_pos hp]
      by_cases hend : i + 1 = col.length
      · rw [if_pos hend]
        left
        exact hend
      · rw [if_neg hend]
        by_cases hg : gtZero (col.getD (i + 1) none) = true
        · rw [if_pos hg]
          apply ih (i + 1) 0 (by omega) (by omega)
          intro j hj1 hj2
          exfalso
          omega
        · rw [if_neg hg]
          rw [Bool.not_eq_true] at hg
          apply ih (i + 1) (pause + 1) (by omega) (by omega)
          intro j hj1 hj2
          rcases Nat.lt_or_ge j (i + 1) with hlt | hge
          · exact hinv j (by omega) (by omega)
          · have hj : j = i + 1 := by omega
            rw [hj]
            exact hg
    · rw [if_neg hp]
      right
      intro j hj1 hj2
      exact hinv j (by omega) hj2

/-- Every element of a Python slice comes from the sliced list. -/
theorem mem_pySlice {α : Type} {l : List α} {a b : ℤ} {x : α}
    (h : x ∈ pySlice l a b) : x ∈ l := by
  unfold pySlice at h
  exact List.mem_of_mem_take (List.mem_of_mem_drop h)

/-- Every element of an event window comes from the column. -/
theorem mem_eventWindow {col : List PVal} {six start stop : ℕ} {x : PVal}
    (h : x ∈ eventWindow col six start stop) : x ∈ col := by
  unfold eventWindow at h
  split at h <;> exact mem_pySlice h

/-- A NaN-ignoring sum of nonnegative values is nonnegative. -/
theorem nansum_nonneg {N : List PVal} (h : ∀ q : ℚ, some q ∈ N → 0 ≤ q) :
    0 ≤ nansum N := by
  unfold nansum
  apply List.sum_nonneg
  intro x hx
  obtain ⟨v, hv, rfl⟩ := List.mem_map.mp hx
  cases v with
  | none => simp
  | some q => simpa using h q hv

/-- A left max-fold never drops below its starting value. -/
theorem le_foldl_max (xs : List ℚ) : ∀ a : ℚ, a ≤ xs.foldl max a := by
  induction xs with
  | nil => intro a; simp
  | cons y ys ih => intro a; exact le_trans (le_max_left a y) (ih (max a y))

/-- A NaN-ignoring maximum of nonnegative values is nonnegative. -/
theorem nanmax_nonneg {N : List PVal} (h : ∀ q : ℚ, some q ∈ N → 0 ≤ q) :
    0 ≤ nanmax N := by
  unfold nanmax
  cases hfm : N.filterMap id with
  | nil => exact le_refl 0
  | cons x xs =>
    have hx : some x ∈ N := by
      have hmem : x ∈ N.filterMap id := by
        rw [hfm]
        exact List.mem_cons_self x xs
      obtain ⟨v, hv, he⟩ := List.mem_filterMap.mp hmem
      cases v with
      | none => simp at he
      | some q =>
        simp only [id] at he
        rw [he] at hv
        exact hv
    exact le_trans (h x hx) (le_foldl_max xs x)

/-- The rolling 30-minute maximum over a window of nonnegative values is
nonnegative (the fold starts from a nonnegative window sum and only ever
replaces the accumulator by something strictly larger). -/
theorem rollMax_nonneg {N : List PVal} (window : ℕ)
    (h : ∀ q : ℚ, some q ∈ N → 0 ≤ q) : 0 ≤ rollMax N window := by
  unfold rollMax
  have hinit : 0 ≤ nansum (N.take window) :=
    nansum_nonneg (fun q hq => h q (List.mem_of_mem_take hq))
  have hs : ∀ (ks : List ℕ) (acc : ℚ), 0 ≤ acc →
      0 ≤ ks.foldl (fun acc k =>
        let n30 := nansum ((N.drop (k + 1)).take window)
        if acc < n30 then n30 else acc) acc := by
    intro ks
    induction ks with
    | nil => intro acc hacc; simpa using hacc
    | cons k ks ih =>
      intro acc hacc
      rw [List.foldl_cons]
      apply ih
      dsimp only
      split
      · next hlt => exact le_of_lt (lt_of_le_of_lt hacc hlt)
      · exact hacc
  exact hs _ _ hinit

/-- I30 over a window of nonnegative values is nonnegative. -/
theorem calcI30_nonneg (freq window : ℕ) {N : List PVal}
    (h : ∀ q : ℚ, some q ∈ N → 0 ≤ q) : 0 ≤ calcI30 freq window N := by
  unfold calcI30
  split
  · exact nanmax_nonneg h
  · apply mul_nonneg (by norm_num)
    split
    · exact nansum_nonneg h
    · exact rollMax_nonneg window h

/-- Each kinetic-energy contribution is nonnegative provided the interval
value is nonnegative and log10 keeps the Schwertmann coefficient
nonnegative above the 0.05 mm/h threshold (true of the real log10, since
`11.89 + 8.73*log10(0.05) > 0`). -/
theorem energyContrib_nonneg (log10 : ℚ → ℚ) (freq : ℕ)
    (hlog : ∀ q : ℚ, (0.05 : ℚ) < q → 0 ≤ 11.89 + 8.73 * log10 q)
    {v : PVal} (hv : ∀ q : ℚ, v = some q → 0 ≤ q) :
    0 ≤ energyContrib log10 freq v := by
  cases v with
  | none => exact le_refl 0
  | some n =>
    have hn : 0 ≤ n := hv n rfl
    unfold energyContrib
    dsimp only
    split
    · next hc =>
      exact mul_nonneg (mul_nonneg (hlog _ hc.1) hn) (by norm_num)
    · split
      · exact mul_nonneg (mul_nonneg (by norm_num) hn) (by norm_num)
      · exact le_refl 0

/-- Processing one event cannot decrease a nonnegative accumulated R when
the column is nonnegative. -/
theorem processEvent_R_nonneg (log10 : ℚ → ℚ) (col : List PVal)
    (freq six window start stop : ℕ) (acc : ℚ × ℕ)
    (hlog : ∀ q : ℚ, (0.05 : ℚ) < q → 0 ≤ 11.89 + 8.73 * log10 q)
    (hcol : ∀ q : ℚ, some q ∈ col → 0 ≤ q) (hacc : 0 ≤ acc.1) :
    0 ≤ (processEvent log10 col freq six window start stop acc).1 := by
  have hN : ∀ q : ℚ, some q ∈ eventWindow col six start stop → 0 ≤ q :=
    fun q hq => hcol q (mem_eventWindow hq)
  unfold processEvent
  dsimp only
  split
  · split
    · have hE : 0 ≤ ((eventWindow col six start stop).map
          (energyContrib log10 freq)).sum := by
        apply List.sum_nonneg
        intro x hx
        obtain ⟨v, hv, rfl⟩ := List.mem_map.mp hx
        exact energyContrib_nonneg log10 freq hlog (fun q hq => hN q (hq ▸ hv))
      have hI : 0 ≤ calcI30 freq window (eventWindow col six start stop) :=
        calcI30_nonneg freq window hN
      exact add_nonneg hacc (mul_nonneg hE hI)
    · exact hacc
  · exact hacc

/-- The outer scan of `calc_R_factor` keeps the accumulated R nonnegative
over a nonnegative column, for every fuel, cursor and starting
accumulator. -/
theorem outerLoop_R_nonneg (log10 : ℚ → ℚ) (col : List PVal) (freq six window : ℕ)
    (hlog : ∀ q : ℚ, (0.05 : ℚ) < q → 0 ≤ 11.89 + 8.73 * log10 q)
    (hcol : ∀ q : ℚ, some q ∈ col → 0 ≤ q) :
    ∀ (fuel i : ℕ) (acc : ℚ × ℕ), 0 ≤ acc.1 →
      0 ≤ (outerLoop log10 col freq six window fuel i acc).1 := by
  intro fuel
  induction fuel with
  | zero => intro i acc hacc; exact hacc
  | succ n ih =>
    intro i acc hacc
    simp only [outerLoop]
    split
    · split
      · exact ih _ _ (processEvent_R_nonneg log10 col freq six window i _ acc
          hlog hcol hacc)
      · exact ih _ _ hacc
    · exact hacc

/-! ## Claim theorems -/

/-- C1: the source's kinetic-energy loop (erosivity.py lines 386-393) tests
`N[j] >= 76.2` in its second branch, not the intensity `I >= 76.2` as the
claim states: at 5-minute frequency an interval value of 10 mm has intensity
`I = 10 * (60/5) = 120 >= 76.2`, yet the code adds zero energy (for every
log10), while the claim prescribes the nonzero contribution
`28.33 * 10 * 1e-3`. -/
theorem erosivity_C1_energy_high_intensity_branch :
    (∀ log10 : ℚ → ℚ, energyContrib log10 5 (some 10) = 0) ∧
    (76.2 : ℚ) ≤ 10 * ((60 / 5 : ℕ) : ℚ) ∧ (28.33 * 10 * (1 / 1000) : ℚ) ≠ 0 := by
  refine ⟨fun f => ?_, by norm_num, by norm_num⟩
  norm_num [energyContrib]

/-- C3: the truncation branch of `decode_radolan_runlength_line` slices the
raw encoded bytes (`dline[:trailing]`) instead of the decoded row: for
`ncol = 2` the line `[0, 17, 53, 10]` (offset 1, one run of width 3) decodes
to 4 values, and the function returns a row of length 0, not 2. -/
theorem radolan_C3_runlength_truncation :
    decode_radolan_runlength_line [0, 17, 53, 10] 2 (-9999) = some ([] : List ℤ) ∧
    ([] : List ℤ).length ≠ 2 := by
  constructor
  · decide
  · decide

/-- C4: `read_radolan_header` has no end-of-stream check: on a stream with
no ETX byte (here `[65, 66]`) the loop keeps re-reading the empty string and
never terminates — for every fuel bound it is still running (`none`) —
instead of failing with `FormatError("missing ETX")` as the claim states. -/
theorem radolan_C4_missing_etx_nonterminating :
    ∀ fuel : ℕ, read_radolan_header fuel [65, 66] = none := by
  intro fuel
  match fuel with
  | 0 => rfl
  | 1 => rfl
  | n + 2 => exact headerLoop_nil n [65, 66]

/-- C5: when the number of missing values exceeds
`max_nan_days * (1440/freq_min)`, `calc_R_factor` short-circuits to
`(NaN, NaN)` (modelled as `none`) before any event scanning: the source's
threshold `max_nan_days * (60/freq_min) * 24` is at most the claim's
`max_nan_days * (1440/freq_min)` under integer division, so the claim's
condition triggers the source's guard for every series and frequency. -/
theorem erosivity_C5_nan_shortcircuit (log10 : ℚ → ℚ) (column : List PVal)
    (freq_min max_nan_days : ℕ) (hf : 0 < freq_min)
    (h : column.countP (fun v => v.isNone) > max_nan_days * (1440 / freq_min)) :
    calc_R_factor log10 column freq_min max_nan_days = none := by
  unfold calc_R_factor
  rw [if_pos]
  have h1 : (60 / freq_min) * 24 ≤ 1440 / freq_min := by
    rw [Nat.le_div_iff_mul_le hf]
    calc 60 / freq_min * 24 * freq_min = 60 / freq_min * freq_min * 24 := by ring
      _ ≤ 60 * 24 := Nat.mul_le_mul_right 24 (Nat.div_mul_le_self 60 freq_min)
      _ = 1440 := rfl
  have hle : max_nan_days * (60 / freq_min) * 24 ≤ max_nan_days * (1440 / freq_min) := by
    calc max_nan_days * (60 / freq_min) * 24
        = max_nan_days * ((60 / freq_min) * 24) := by ring
      _ ≤ max_nan_days * (1440 / freq_min) := Nat.mul_le_mul_left _ h1
  exact lt_of_le_of_lt hle h

/-- C5 witness: a 60-minute series of two missing values with
`max_nan_days = 0` exceeds the threshold and yields the NaN pair. -/
theorem erosivity_C5_nan_shortcircuit_witness :
    calc_R_factor (fun q => q) [none, none] 60 0 = none :=
  erosivity_C5_nan_shortcircuit (fun q => q) [none, none] 60 0 (by decide) (by decide)

/-- C6 counterexample: the claim fails on the RD product: for raw word
0x4001 the no-data flag is clear, the masked magnitude is 1, but the sign
flag makes the source negate on the uint16 array, so with precision 1 the
decoded value is 65535, not `m * p = 1`. -/
theorem radolan_C6_rd_negative_cell :
    decode16cell "RD" 1 (-9999) 0x4001 = 65535 ∧
    decode16cell "RD" 1 (-9999) 0x4001 ≠ ((0x4001 &&& 0xFFF : ℕ) : ℚ) * 1 := by
  have h : decode16cell "RD" 1 (-9999) 0x4001 = 65535 := by
    simp only [decode16cell]
    norm_num
    decide
  refine ⟨h, ?_⟩
  rw [h]
  have e3 : (0x4001 &&& 0xFFF : ℕ) = 1 := by decide
  rw [e3]
  norm_num

/-- C6 amended: for every cell of the default 16-bit branch whose no-data
flag is clear and which is not an RD cell with the sign flag set, the
decoded value is `m * p` for the masked magnitude `m = raw & 0xFFF`, and
dividing by a nonzero precision and rounding recovers `m` exactly. -/
theorem radolan_C6_roundtrip_amended (producttype : String) (precision nodata : ℚ)
    (raw : ℕ) (hnod : raw &&& 0x2000 = 0)
    (hneg : ¬(producttype = "RD" ∧ raw &&& 0x4000 ≠ 0)) (hp : precision ≠ 0) :
    decode16cell producttype precision nodata raw = ((raw &&& 0xFFF : ℕ) : ℚ) * precision ∧
    round (decode16cell producttype precision nodata raw / precision) =
      ((raw &&& 0xFFF : ℕ) : ℤ) := by
  have hd : decode16cell producttype precision nodata raw
      = ((raw &&& 0xFFF : ℕ) : ℚ) * precision := by
    unfold decode16cell
    simp [hnod, hneg]
  refine ⟨hd, ?_⟩
  rw [hd, mul_div_assoc, div_self hp, mul_one, round_natCast]

/-- C6 witness: an RW cell with raw word 42 and precision 1/100 decodes to
42/100 and rounds back to 42. -/
theorem radolan_C6_roundtrip_amended_witness :
    decode16cell "RW" (1 / 100) (-9999) 42 = ((42 &&& 0xFFF : ℕ) : ℚ) * (1 / 100) ∧
    round (decode16cell "RW" (1 / 100) (-9999) 42 / (1 / 100)) = ((42 &&& 0xFFF : ℕ) : ℤ) :=
  radolan_C6_roundtrip_amended "RW" (1 / 100) (-9999) 42 (by decide) (by decide) (by norm_num)

/-- C7 counterexample: the claim fails on `hdf5_to_hydrologicalSeasons`: its
resample call (both pandas-version branches) passes `label='left'` and omits
`closed`, whose pandas default for the quarter-start anchor '2QS-MAY' is
also the left edge — its own docstring notes this contrast. -/
theorem resample_C7_hydroseasons_left_label :
    (hydroSeasons_resample true).label ≠ Side.right ∧
    (hydroSeasons_resample false).label ≠ Side.right := by
  constructor
  · decide
  · decide

/-- C7 amended: the heavy-rainfall interval counting resamples with interval
boundaries closed on the right and labeled on the right (both pandas-version
branches, every season reaching the call), but the derived
hydrological-season resampling labels (and closes) on the left, so the
right-edge convention does not hold for every resampling operation. -/
theorem resample_C7_right_convention_amended :
    (∀ (pd_ge19 : Bool) (season : SeasonArg) (rc : ResampleCall),
        chri_resample pd_ge19 season = some rc →
          rc.closed = Side.right ∧ rc.label = Side.right) ∧
    (∀ pd_ge19 : Bool, (hydroSeasons_resample pd_ge19).label = Side.left ∧
        (hydroSeasons_resample pd_ge19).closed = Side.left) := by
  constructor
  · intro b season rc h
    obtain ⟨f, _, hg⟩ := Option.map_eq_some'.mp h
    cases b <;> simp at hg <;> rw [← hg] <;> exact ⟨rfl, rfl⟩
  · intro b
    cases b
    · exact ⟨rfl, by decide⟩
    · exact ⟨rfl, by decide⟩

/-- C7 witness: the January season under recent pandas resamples monthly
with both edges on the right. -/
theorem resample_C7_right_convention_amended_witness :
    chri_resample true (SeasonArg.str "Jan")
      = some { freq := "M", closed := Side.right, label := Side.right } ∧
    ({ freq := "M", closed := Side.right, label := Side.right } : ResampleCall).closed
      = Side.right ∧
    ({ freq := "M", closed := Side.right, label := Side.right } : ResampleCall).label
      = Side.right :=
  ⟨by decide,
   resample_C7_right_convention_amended.1 true (SeasonArg.str "Jan")
     { freq := "M", closed := Side.right, label := Side.right } (by decide)⟩

/-- C8: a timestamp is kept by `find_heavy_rainfalls` iff its row has
strictly more than `minArea` cells with value `>= thresholdValue`; in
particular with threshold 10 and minArea 0 a grid whose single timestamp has
exactly one cell equal to 10 is selected (count 1 > 0). -/
theorem heavyrain_C8_selection_iff :
    (∀ (data : List (ℕ × List PVal)) (thr : ℚ) (minArea : ℤ) (row : ℕ × List PVal),
        row ∈ find_heavy_rainfalls data thr minArea ↔
          row ∈ data ∧ minArea < (countGe row.2 thr : ℤ)) ∧
    find_heavy_rainfalls [(7, [some 10, some 0, none])] 10 0
      = [(7, [some 10, some 0, none])] := by
  constructor
  · intro data thr minArea row
    simp [find_heavy_rainfalls, _exceeding, List.mem_filter]
  · decide

/-- C9 counterexample: the token "May - October" is not in the season
vocabulary of `find_heavy_rainfalls` (only of `find_heavy_rainfalls_old`):
the chain falls through, `months` stays unbound, and the call dies with a
NameError (`none`) instead of selecting months 5-10 as the claim states. -/
theorem heavyrain_C9_may_october_unrecognized :
    season_months (SeasonArg.str "May - October") = none ∧
    season_months (SeasonArg.str "May - October") ≠ some [5, 6, 7, 8, 9, 10] := by
  constructor
  · decide
  · decide

/-- C9 amended: every token `find_heavy_rainfalls` recognizes maps to its
explicit month list ("April - September" to 4-9, "October - March" to
1-3,10-12, etc.); "May - October" (months 5-10) is recognized only by the
older `find_heavy_rainfalls_old`; any season outside the vocabulary —
including every list argument — leaves `months` unbound, so the call fails
with a NameError rather than silently defaulting. -/
theorem heavyrain_C9_season_vocabulary_amended :
    season_months_old (SeasonArg.str "May - October") = some [5, 6, 7, 8, 9, 10] ∧
    season_months (SeasonArg.str "Year") = some [1, 2, 3, 4, 5, 6, 7, 8, 9, 10, 11, 12] ∧
    season_months (SeasonArg.str "April - September") = some [4, 5, 6, 7, 8, 9] ∧
    season_months (SeasonArg.str "October - March") = some [1, 2, 3, 10, 11, 12] ∧
    season_months (SeasonArg.str "January/December") = some [1, 12] ∧
    season_months (SeasonArg.str "May") = some [5] ∧
    (∀ s : String, s ∉ recognizedSeasons → season_months (SeasonArg.str s) = none) ∧
    (∀ l : List ℕ, season_months (SeasonArg.list l) = none) := by
  refine ⟨by decide, by decide, by decide, by decide, by decide, by decide, ?_, fun l => rfl⟩
  intro s hs
  simp only [recognizedSeasons, List.mem_cons, List.not_mem_nil, or_false, not_or] at hs
  obtain ⟨h1, h2, h3, h4, h5, h6, h7, h8, h9, h10, h11, h12, h13, h14, h15, h16⟩ := hs
  simp [season_months, h1, h2, h3, h4, h5, h6, h7, h8, h9, h10, h11, h12, h13, h14, h15, h16]

/-- C9 witness: an arbitrary unknown season token yields the unbound-months
failure. -/
theorem heavyrain_C9_season_vocabulary_amended_witness :
    season_months (SeasonArg.str "Foobar") = none :=
  (heavyrain_C9_season_vocabulary_amended.2.2.2.2.2.2.1) "Foobar" (by decide)

/-- C2: for a candidate rain event starting at a rainy position `start`, the
inner scan stops either at the array end or at a cursor whose trailing
`six + 1` positions are all dry (dry-run counter exceeded), and the event
window used by `calc_R_factor` is `column[start : i - six_hours]` when the
trailing sum `nansum(column[i - six_hours : i])` is zero and the full
`column[start : i]` otherwise (Python slice semantics throughout). -/
theorem erosivity_C2_event_window_rule (col : List PVal) (six start : ℕ)
    (hstart : start < col.length) (_hrain : gtZero (col.getD start none) = true) :
    (innerScan col six col.length start 0 = col.length ∨
      (∀ j, innerScan col six col.length start 0 - six ≤ j →
        j ≤ innerScan col six col.length start 0 → gtZero (col.getD j none) = false)) ∧
    eventWindow col six start (innerScan col six col.length start 0) =
      (if nansum (pySlice col ((innerScan col six col.length start 0 : ℤ) - six)
          (innerScan col six col.length start 0)) = 0 then
        pySlice col start ((innerScan col six col.length start 0 : ℤ) - six)
      else pySlice col start (innerScan col six col.length start 0)) := by
  refine ⟨?_, rfl⟩
  apply innerScan_stop_characterization col six col.length start 0 (Nat.sub_le _ _) hstart
  intro j hj1 hj2
  exfalso
  omega

/-- C2 witness: a one-interval rain at position 0 followed by three dry
intervals at `six = 1`: the scan stops at cursor 2, the trailing window
`col[1:2]` sums to zero, and the event window is truncated to `col[0:1]`. -/
theorem erosivity_C2_event_window_rule_witness :
    (innerScan [some 1, some 0, some 0, some 0] 1 4 0 0 = 4 ∨
      (∀ j, innerScan [some 1, some 0, some 0, some 0] 1 4 0 0 - 1 ≤ j →
        j ≤ innerScan [some 1, some 0, some 0, some 0] 1 4 0 0 →
        gtZero (([some 1, some 0, some 0, some 0] : List PVal).getD j none) = false)) ∧
    eventWindow [some 1, some 0, some 0, some 0] 1 0
        (innerScan [some 1, some 0, some 0, some 0] 1 4 0 0) =
      (if nansum (pySlice ([some 1, some 0, some 0, some 0] : List PVal)
          ((innerScan [some 1, some 0, some 0, some 0] 1 4 0 0 : ℤ) - 1)
          (innerScan [some 1, some 0, some 0, some 0] 1 4 0 0)) = 0 then
        pySlice ([some 1, some 0, some 0, some 0] : List PVal) 0
          ((innerScan [some 1, some 0, some 0, some 0] 1 4 0 0 : ℤ) - 1)
      else pySlice ([some 1, some 0, some 0, some 0] : List PVal) 0
          (innerScan [some 1, some 0, some 0, some 0] 1 4 0 0)) :=
  erosivity_C2_event_window_rule [some 1, some 0, some 0, some 0] 1 0
    (by decide) (by decide)

/-- C10 counterexample: with negative entries allowed (as the claim
explicitly does), `calc_R_factor` can return a negative R: on the 15-minute
column `[100, -101, 100, 0, ...]` the single event has precipitation sum 99
(erosive) but every 30-minute window sums to -1, so `I30 = -2` and
`R = E * I30 = (2833/500) * (-2) = -2833/250 < 0`, falsifying `R >= 0.0`. -/
theorem erosivity_C10_negative_R :
    calc_R_factor (fun _ => 0) negativeEventColumn 15 0 = some (-(2833 / 250), 1) ∧
    ¬ (0 : ℚ) ≤ -(2833 / 250) := by
  constructor
  · have hlen : negativeEventColumn.length = 28 := by norm_num [negativeEventColumn]
    have h1 : innerScan negativeEventColumn 24 28 0 0 = 27 := by
      norm_num [negativeEventColumn, innerScan, gtZero]
    have h2 : eventWindow negativeEventColumn 24 0 27
        = [some 100, some (-101), some 100] := by
      norm_num [negativeEventColumn, eventWindow, pySlice, nansum, List.take_replicate,
        List.drop_replicate, List.sum_replicate, List.take_succ_cons, List.drop_succ_cons,
        (show Int.toNat 3 = 3 from rfl), (show Int.toNat 27 = 27 from rfl)]
    have h3 : calcI30 15 2 [some 100, some (-101), some 100] = -2 := by
      norm_num [calcI30, rollMax, nansum, List.range_succ]
    have h99 : nansum [some 100, some (-101), some 100] = 99 := by norm_num [nansum]
    have h4 : ([some 100, some (-101), some 100].map
        (energyContrib (fun _ => 0) 15)).sum = 2833 / 500 := by
      norm_num [energyContrib]
    have h5 : processEvent (fun _ => 0) negativeEventColumn 15 24 2 0 27 (0, 0)
        = (-(2833 / 250), 1) := by
      rw [processEvent, h2, h3, h99, h4]
      norm_num
    have hnan : (negativeEventColumn.countP fun v => v.isNone) = 0 := by decide
    have hg0 : gtZero (negativeEventColumn.getD 0 none) = true := by
      norm_num [negativeEventColumn, gtZero]
    have h6 : calc_R_factor (fun _ => 0) negativeEventColumn 15 0
        = some (outerLoop (fun _ => 0) negativeEventColumn 15 24 2
            (negativeEventColumn.length + 1) 0 (0, 0)) := by
      rw [calc_R_factor]
      norm_num [hnan]
    rw [h6, hlen, outerLoop, hlen]
    rw [if_pos (show (0 : ℕ) < 28 by norm_num)]
    rw [if_pos hg0]
    rw [h1]
    simp only [h5]
    rw [outerLoop, hlen]
    norm_num
  · norm_num

/-- C10 amended: `calc_R_factor` (a pure total function of the column — it
cannot mutate its input or raise) returns either the NaN pair or a pair
`(R, n_rains)` with `n_rains : ℕ`; the nonnegativity `R >= 0.0` holds once
the non-missing entries of the column are nonnegative (the counterexample
forces this restriction), for any log10 that keeps the Schwertmann
coefficient nonnegative above the 0.05 threshold — as the real log10 does;
and an event whose truncated window is empty is discarded by the
`len(N) > 0` guard, contributing neither to R nor to the event count. -/
theorem erosivity_C10_safety_amended (log10 : ℚ → ℚ) (col : List PVal)
    (freq_min max_nan_days : ℕ)
    (hlog : ∀ q : ℚ, (0.05 : ℚ) < q → 0 ≤ 11.89 + 8.73 * log10 q)
    (hcol : ∀ q : ℚ, some q ∈ col → 0 ≤ q) :
    (calc_R_factor log10 col freq_min max_nan_days = none ∨
      ∃ (R : ℚ) (n_rains : ℕ),
        calc_R_factor log10 col freq_min max_nan_days = some (R, n_rains) ∧ 0 ≤ R) ∧
    (∀ (six window start stop : ℕ) (acc : ℚ × ℕ),
      eventWindow col six start stop = [] →
      processEvent log10 col freq_min six window start stop acc = acc) := by
  constructor
  · unfold calc_R_factor
    dsimp only
    split
    · exact Or.inl rfl
    · exact Or.inr ⟨_, _, rfl,
        outerLoop_R_nonneg log10 col freq_min (6 * 60 / freq_min) (30 / freq_min)
          hlog hcol (col.length + 1) 0 (0, 0) (le_refl 0)⟩
  · intro six window start stop acc hN
    unfold processEvent
    simp [hN]

/-- C10 amended witness: a nonnegative 60-minute column with one missing
value yields a nonnegative R (here the non-NaN branch with R = 0). -/
theorem erosivity_C10_safety_amended_witness :
    (calc_R_factor (fun _ => 0) [some 1, none] 60 5 = none ∨
      ∃ (R : ℚ) (n_rains : ℕ),
        calc_R_factor (fun _ => 0) [some 1, none] 60 5 = some (R, n_rains) ∧ 0 ≤ R) ∧
    (∀ (six window start stop : ℕ) (acc : ℚ × ℕ),
      eventWindow [some 1, none] six start stop = [] →
      processEvent (fun _ => 0) [some 1, none] 60 six window start stop acc = acc) :=
  erosivity_C10_safety_amended (fun _ => 0) [some 1, none] 60 5
    (fun q _ => by norm_num)
    (fun q hq => by
      simp at hq
      subst hq
      norm_num)

end Radproc
